import Mathlib

/-
Verification of the SignBridge native-messaging host.

Shallow embedding of the relevant modules:
  - host/signbridge/config.py                  (constants)
  - host/signbridge/messaging/request_parser.py
  - host/signbridge/messaging/response_builder.py
  - host/signbridge/messaging/native_io.py     (read_message)
  - host/signbridge/processing/object_resolver.py
  - host/signbridge/processing/engine.py
  - host/signbridge/network/uploader.py        (header computation)
  - host/signbridge/crypto/certificate.py      (find_certificate_by_id)

JSON values are modelled by the inductive JVal; Python dicts are association
lists looked up by first key occurrence.  Functions that raise exceptions are
modelled in Except; external collaborators (HTTP, PKCS11, clock) are oracle
functions supplied in an Env record.
-/

namespace SignBridge

/-- Model of a decoded JSON value (what json.loads produces). -/
inductive JVal where
  | str (s : String) : JVal
  | num (n : Int) : JVal
  | boolean (b : Bool) : JVal
  | null : JVal
  | arr (elems : List JVal) : JVal
  | obj (fields : List (String × JVal)) : JVal

/-- Python dict lookup d.get(k): first binding for the key, none when absent. -/
def jget (fields : List (String × JVal)) (key : String) : Option JVal :=
  (fields.find? (fun p => p.1 == key)).map (fun p => p.2)

/-- Python membership test: k in d (key present, value irrelevant). -/
def jhas (fields : List (String × JVal)) (key : String) : Bool :=
  (fields.find? (fun p => p.1 == key)).isSome

/-- Python d.get(k) where callers test the result against None: a JSON null
value behaves like an absent key (json null decodes to Python None). -/
def pyGet (fields : List (String × JVal)) (key : String) : Option JVal :=
  match jget fields key with
  | some JVal.null => none
  | r => r

/-- Python string-on-the-right equality test v == s for a dynamic v: true only
when v is a string equal to s. -/
def jvalEqStr (v : JVal) (s : String) : Bool :=
  match v with
  | JVal.str t => t == s
  | _ => false

/-- Python d.get(k, default) for string-valued fields: the default when the key
is absent; the string value when present.  (A non-string value would be stored
unchecked by the source and crash later; no claim depends on that path.) -/
def jgetStrD (fields : List (String × JVal)) (key dflt : String) : String :=
  match jget fields key with
  | some (JVal.str s) => s
  | _ => dflt

/-- Python d.get(k): optional string field stored without a type check. -/
def jgetStr (fields : List (String × JVal)) (key : String) : Option String :=
  match pyGet fields key with
  | some (JVal.str s) => some s
  | _ => none

/-- Python (d.get("headers") or ...) coerced to a string-to-string mapping. -/
def jgetHeaders (fields : List (String × JVal)) (key : String) : List (String × String) :=
  match jget fields key with
  | some (JVal.obj hs) => hs.filterMap (fun p => match p.2 with
      | JVal.str v => some (p.1, v)
      | _ => none)
  | _ => []

-- ── config.py constants ────────────────────────────────────────────────────

def PROTOCOL_VERSION : String := "1.0"

def SUPPORTED_DATA_TYPES : List String := ["text", "xml", "json", "pdf", "binary"]

def INLINE_ALLOWED_TYPES : List String := ["text", "xml", "json"]

def REMOTE_ONLY_TYPES : List String := ["pdf", "binary"]

/-- config.py: MAX_INLINE_SIZE_BYTES = 1 * 1024 * 1024.  The constant is
declared for the inline-payload cap but is never referenced by the parser. -/
def MAX_INLINE_SIZE_BYTES : Nat := 1 * 1024 * 1024

def SIGNED_CONTENT_TYPE_MAP : List (String × String) :=
  [("string", "text/plain"),
   ("pdf", "application/pdf"),
   ("xml", "application/xml"),
   ("binary", "application/octet-stream")]

-- ── request_parser.py: typed data structures ───────────────────────────────

structure RequestValidationError where
  code : String
  message : String
  deriving DecidableEq

structure CertSelector where
  cert_id : String
  label : Option JVal

structure ContentInline where
  encoding : String
  content : String
  deriving DecidableEq

structure ContentRemote where
  download_url : String
  http_method : String
  headers : List (String × String)
  deriving DecidableEq

/-- ContentInline | ContentRemote union from the source. -/
inductive Content where
  | inl (c : ContentInline) : Content
  | rem (r : ContentRemote) : Content
  deriving DecidableEq

structure PdfOptions where
  label : String
  deriving DecidableEq

structure XmlOptions where
  xpath : String
  id_attribute : Option String
  deriving DecidableEq

structure UploadConfig where
  upload_url : String
  http_method : String
  headers : List (String × String)
  signed_content_type : String
  deriving DecidableEq

structure CallbacksConfig where
  on_success : String
  on_error : String
  progress : Option String
  headers : List (String × String)
  deriving DecidableEq

structure SignObject where
  id : String
  data_type : String
  content : Content
  upload : UploadConfig
  callbacks : CallbacksConfig
  pdf_options : Option PdfOptions
  xml_options : Option XmlOptions
  deriving DecidableEq

structure GroupInlineObject where
  id : String
  encoding : String
  value : String
  deriving DecidableEq

structure GroupRemoteObject where
  id : String
  deriving DecidableEq

/-- list[GroupInlineObject] | list[GroupRemoteObject] union from the source. -/
inductive GroupObjects where
  | inlineObjs (l : List GroupInlineObject) : GroupObjects
  | remoteObjs (l : List GroupRemoteObject) : GroupObjects
  deriving DecidableEq

structure ObjectGroup where
  data_type : String
  mode : String
  download_url : Option String
  download_headers : List (String × String)
  pdf_options : Option PdfOptions
  xml_options : Option XmlOptions
  callbacks : CallbacksConfig
  upload : UploadConfig
  objects : GroupObjects
  deriving DecidableEq

structure SignRequest where
  protocol_version : String
  request_id : String
  app_id : String
  cert : CertSelector
  metadata : List (String × JVal)
  correlation_id : Option JVal
  objects : Option (List SignObject)
  object_groups : Option (List ObjectGroup)

-- ── request_parser.py: parser ──────────────────────────────────────────────

/-- Source _require_str: fails with BAD_REQUEST unless the field is a
non-empty string. -/
def require_str (fields : List (String × JVal)) (key name : String) :
    Except RequestValidationError String :=
  match jget fields key with
  | some (JVal.str v) =>
      if v = "" then
        Except.error { code := "BAD_REQUEST", message := "Missing or empty required field: " ++ name }
      else
        Except.ok v
  | _ => Except.error { code := "BAD_REQUEST", message := "Missing or empty required field: " ++ name }

/-- Python: if not cond: raise RequestValidationError(e). -/
def ensure (cond : Bool) (e : RequestValidationError) : Except RequestValidationError Unit :=
  if cond then Except.ok () else Except.error e

/-- Python list comprehension with a fallible body: left to right, first
error aborts. -/
def exMapM (f : α → Except RequestValidationError β) :
    List α → Except RequestValidationError (List β)
  | [] => Except.ok []
  | a :: as => do
      let b ← f a
      let bs ← exMapM f as
      Except.ok (b :: bs)

/-- Source _parse_content. -/
def parse_content (raw : JVal) (obj_label : String) :
    Except RequestValidationError Content :=
  match raw with
  | JVal.obj fields =>
      match jget fields "mode" with
      | some m =>
          if jvalEqStr m "inline" then do
            let c ← require_str fields "content" (obj_label ++ ".content.content")
            Except.ok (Content.inl { encoding := jgetStrD fields "encoding" "utf8", content := c })
          else if jvalEqStr m "remote" then do
            let u ← require_str fields "downloadUrl" (obj_label ++ ".content.downloadUrl")
            Except.ok (Content.rem { download_url := u,
                                     http_method := jgetStrD fields "httpMethod" "GET",
                                     headers := jgetHeaders fields "headers" })
          else
            Except.error { code := "BAD_REQUEST", message := obj_label ++ ": content.mode must be inline or remote" }
      | none => Except.error { code := "BAD_REQUEST", message := obj_label ++ ": content.mode must be inline or remote" }
  | _ => Except.error { code := "BAD_REQUEST", message := obj_label ++ ": content must be an object" }

/-- Source _parse_upload.  Note: signedContentType is only required to be a
non-empty string; membership in SIGNED_CONTENT_TYPE_MAP is not checked. -/
def parse_upload (raw : Option JVal) (label : String) :
    Except RequestValidationError UploadConfig :=
  match raw with
  | some (JVal.obj fields) => do
      let url ← require_str fields "uploadUrl" (label ++ ".upload.uploadUrl")
      let sct ← require_str fields "signedContentType" (label ++ ".upload.signedContentType")
      Except.ok { upload_url := url,
                  http_method := jgetStrD fields "httpMethod" "POST",
                  headers := jgetHeaders fields "headers",
                  signed_content_type := sct }
  | _ => Except.error { code := "BAD_REQUEST", message := label ++ ": upload must be an object" }

/-- Source _parse_callbacks. -/
def parse_callbacks (raw : Option JVal) (label : String) :
    Except RequestValidationError CallbacksConfig :=
  match raw with
  | some (JVal.obj fields) => do
      let s ← require_str fields "onSuccess" (label ++ ".callbacks.onSuccess")
      let e ← require_str fields "onError" (label ++ ".callbacks.onError")
      Except.ok { on_success := s, on_error := e,
                  progress := jgetStr fields "progress",
                  headers := jgetHeaders fields "headers" }
  | _ => Except.error { code := "BAD_REQUEST", message := label ++ ": callbacks must be an object" }

/-- Source _parse_pdf_options. -/
def parse_pdf_options (raw : JVal) (label : String) :
    Except RequestValidationError PdfOptions :=
  match raw with
  | JVal.obj fields => do
      let l ← require_str fields "label" (label ++ ".pdfOptions.label")
      Except.ok { label := l }
  | _ => Except.error { code := "BAD_REQUEST", message := label ++ ": pdfOptions must be an object" }

/-- Source _parse_xml_options. -/
def parse_xml_options (raw : JVal) (label : String) :
    Except RequestValidationError XmlOptions :=
  match raw with
  | JVal.obj fields => do
      let x ← require_str fields "xpath" (label ++ ".xmlOptions.xpath")
      Except.ok { xpath := x, id_attribute := jgetStr fields "idAttribute" }
  | _ => Except.error { code := "BAD_REQUEST", message := label ++ ": xmlOptions must be an object" }

/-- pdfOptions handling shared by _parse_object and _parse_group: required
when dataType is pdf. -/
def parsePdfIfNeeded (dt : String) (fields : List (String × JVal)) (label : String) :
    Except RequestValidationError (Option PdfOptions) :=
  if dt = "pdf" then
    match pyGet fields "pdfOptions" with
    | none => Except.error { code := "BAD_REQUEST", message := label ++ ": pdfOptions required when dataType is pdf" }
    | some p => (parse_pdf_options p label).map some
  else Except.ok none

/-- xmlOptions handling shared by _parse_object and _parse_group: optional,
parsed only when dataType is xml and the field is present. -/
def parseXmlIfNeeded (dt : String) (fields : List (String × JVal)) (label : String) :
    Except RequestValidationError (Option XmlOptions) :=
  if dt = "xml" then
    match pyGet fields "xmlOptions" with
    | none => Except.ok none
    | some x => (parse_xml_options x label).map some
  else Except.ok none

/-- Python isinstance(content, ContentInline). -/
def contentIsInline (c : Content) : Bool :=
  match c with
  | Content.inl _ => true
  | Content.rem _ => false

/-- Source _parse_object. -/
def parse_object (raw : JVal) (idx : Nat) : Except RequestValidationError SignObject :=
  let label := "objects[" ++ toString idx ++ "]"
  match raw with
  | JVal.obj fields => do
      let oid ← require_str fields "id" (label ++ ".id")
      let dt ← require_str fields "dataType" (label ++ ".dataType")
      let _ ← ensure (SUPPORTED_DATA_TYPES.contains dt)
        { code := "UNSUPPORTED_TYPE", message := label ++ ": unsupported dataType " ++ dt }
      let content ← parse_content ((jget fields "content").getD (JVal.obj [])) label
      let _ ← ensure (!(REMOTE_ONLY_TYPES.contains dt && contentIsInline content))
        { code := "BAD_REQUEST", message := label ++ ": dataType " ++ dt ++ " requires mode remote, got inline" }
      let upload ← parse_upload (jget fields "upload") label
      let callbacks ← parse_callbacks (jget fields "callbacks") label
      let pdf_options ← parsePdfIfNeeded dt fields label
      let xml_options ← parseXmlIfNeeded dt fields label
      Except.ok { id := oid, data_type := dt, content := content, upload := upload,
                  callbacks := callbacks, pdf_options := pdf_options, xml_options := xml_options }
  | _ => Except.error { code := "BAD_REQUEST", message := label ++ " must be an object" }

/-- Substring containment over character lists (Python: needle in s). -/
def hasSubstr (s pat : List Char) : Bool :=
  match s with
  | [] => pat.isEmpty
  | _ :: rest => pat.isPrefixOf s || hasSubstr rest pat

/-- Python: pat in s for strings. -/
def strContains (s pat : String) : Bool :=
  hasSubstr s.data pat.data

def objectIdPlaceholder : String := "<objectId>"

/-- Group downloadUrl handling from _parse_group: required for remote mode and
must contain the objectId placeholder. -/
def parseGroupDownload (fields : List (String × JVal)) (mode label : String) :
    Except RequestValidationError (Option String × List (String × String)) :=
  if mode = "remote" then do
    let u ← require_str fields "downloadUrl" (label ++ ".downloadUrl")
    let _ ← ensure (strContains u objectIdPlaceholder)
      { code := "BAD_REQUEST", message := label ++ ": downloadUrl must contain objectId placeholder" }
    Except.ok (some u, jgetHeaders fields "downloadHeaders")
  else Except.ok (none, [])

/-- Python: not isinstance(x, list) or len(x) == 0 checks on objects arrays. -/
def requireNonEmptyArr (v : Option JVal) (msg : String) :
    Except RequestValidationError (List JVal) :=
  match v with
  | some (JVal.arr l) =>
      if l.isEmpty then Except.error { code := "BAD_REQUEST", message := msg }
      else Except.ok l
  | _ => Except.error { code := "BAD_REQUEST", message := msg }

/-- Inner object of an inline group, from _parse_group. -/
def parseGroupInlineObj (raw : JVal) (j : Nat) (label : String) :
    Except RequestValidationError GroupInlineObject :=
  let olabel := label ++ ".objects[" ++ toString j ++ "]"
  match raw with
  | JVal.obj fields => do
      let oid ← require_str fields "id" (olabel ++ ".id")
      match jget fields "content" with
      | some (JVal.obj cfields) => do
          let v ← require_str cfields "value" (olabel ++ ".content.value")
          Except.ok { id := oid, encoding := jgetStrD cfields "encoding" "utf8", value := v }
      | _ => Except.error { code := "BAD_REQUEST", message := olabel ++ ": content is required for inline mode" }
  | _ => Except.error { code := "BAD_REQUEST", message := olabel ++ " must be an object" }

/-- Inner object of a remote group (id only), from _parse_group. -/
def parseGroupRemoteObj (raw : JVal) (j : Nat) (label : String) :
    Except RequestValidationError GroupRemoteObject :=
  let olabel := label ++ ".objects[" ++ toString j ++ "]"
  match raw with
  | JVal.obj fields => do
      let oid ← require_str fields "id" (olabel ++ ".id")
      Except.ok { id := oid }
  | _ => Except.error { code := "BAD_REQUEST", message := olabel ++ " must be an object" }

/-- Inner objects list of a group: inline groups carry value-bearing objects,
remote groups id-only objects. -/
def parseGroupObjects (mode : String) (raws : List JVal) (label : String) :
    Except RequestValidationError GroupObjects :=
  if mode = "inline" then
    (exMapM (fun p => parseGroupInlineObj p.2 p.1 label) raws.enum).map GroupObjects.inlineObjs
  else
    (exMapM (fun p => parseGroupRemoteObj p.2 p.1 label) raws.enum).map GroupObjects.remoteObjs

/-- Source _parse_group. -/
def parse_group (raw : JVal) (idx : Nat) : Except RequestValidationError ObjectGroup :=
  let label := "objectGroups[" ++ toString idx ++ "]"
  match raw with
  | JVal.obj fields => do
      let dt ← require_str fields "dataType" (label ++ ".dataType")
      let _ ← ensure (SUPPORTED_DATA_TYPES.contains dt)
        { code := "UNSUPPORTED_TYPE", message := label ++ ": unsupported dataType " ++ dt }
      let mode ← require_str fields "mode" (label ++ ".mode")
      let _ ← ensure (mode = "inline" || mode = "remote")
        { code := "BAD_REQUEST", message := label ++ ": mode must be inline or remote" }
      let _ ← ensure (!(REMOTE_ONLY_TYPES.contains dt && mode == "inline"))
        { code := "BAD_REQUEST", message := label ++ ": dataType " ++ dt ++ " requires mode remote" }
      let dl ← parseGroupDownload fields mode label
      let callbacks ← parse_callbacks (jget fields "callbacks") label
      let upload ← parse_upload (jget fields "upload") label
      let pdf_options ← parsePdfIfNeeded dt fields label
      let xml_options ← parseXmlIfNeeded dt fields label
      let raw_objects ← requireNonEmptyArr (jget fields "objects") (label ++ ": objects must be a non-empty array")
      let objects ← parseGroupObjects mode raw_objects label
      Except.ok { data_type := dt, mode := mode, download_url := dl.1, download_headers := dl.2,
                  pdf_options := pdf_options, xml_options := xml_options,
                  callbacks := callbacks, upload := upload, objects := objects }
  | _ => Except.error { code := "BAD_REQUEST", message := label ++ " must be an object" }

/-- Source parse_request.  Field order and error precedence follow the
source; protocol_version is stored after the equality check with the pinned
version succeeded, hence equals PROTOCOL_VERSION. -/
def parse_request (raw : JVal) : Except RequestValidationError SignRequest :=
  match raw with
  | JVal.obj fields => do
      let pv ← (match pyGet fields "protocolVersion" with
        | none => Except.error { code := "BAD_REQUEST", message := "Missing required field: protocolVersion" }
        | some v => Except.ok v)
      let _ ← ensure (jvalEqStr pv PROTOCOL_VERSION)
        { code := "UNSUPPORTED_VERSION", message := "Unsupported protocolVersion" }
      let request_id ← require_str fields "requestId" "requestId"
      let app_id ← require_str fields "appId" "appId"
      let metadata ← (match jget fields "metadata" with
        | none => Except.ok ([] : List (String × JVal))
        | some (JVal.obj m) => Except.ok m
        | some _ => Except.error { code := "BAD_REQUEST", message := "metadata must be an object" })
      let cert ← (match jget fields "cert" with
        | some (JVal.obj cf) => do
            let cid ← require_str cf "certId" "cert.certId"
            Except.ok ({ cert_id := cid, label := pyGet cf "label" } : CertSelector)
        | _ => Except.error { code := "BAD_REQUEST", message := "Missing or invalid cert object" })
      let _ ← ensure (!(jhas fields "objects" && jhas fields "objectGroups"))
        { code := "BAD_REQUEST", message := "Request must have objects OR objectGroups, not both" }
      let _ ← ensure (jhas fields "objects" || jhas fields "objectGroups")
        { code := "BAD_REQUEST", message := "Request must have objects or objectGroups" }
      if jhas fields "objects" then do
        let raws ← requireNonEmptyArr (jget fields "objects") "objects must be a non-empty array"
        let objs ← exMapM (fun p => parse_object p.2 p.1) raws.enum
        Except.ok { protocol_version := PROTOCOL_VERSION, request_id := request_id, app_id := app_id,
                    cert := cert, metadata := metadata, correlation_id := pyGet fields "correlationId",
                    objects := some objs, object_groups := none }
      else do
        let raws ← requireNonEmptyArr (jget fields "objectGroups") "objectGroups must be a non-empty array"
        let gs ← exMapM (fun p => parse_group p.2 p.1) raws.enum
        Except.ok { protocol_version := PROTOCOL_VERSION, request_id := request_id, app_id := app_id,
                    cert := cert, metadata := metadata, correlation_id := pyGet fields "correlationId",
                    objects := none, object_groups := some gs }
  | _ => Except.error { code := "BAD_REQUEST", message := "request must be an object" }

-- ── object_resolver.py ─────────────────────────────────────────────────────

/-- Python str.replace over character lists: leftmost, non-overlapping,
replace-all.  (The empty-pattern edge case differs from Python but both call
sites use the literal non-empty placeholder.) -/
def replaceChars (pat rep : List Char) (s : List Char) : List Char :=
  match s with
  | [] => []
  | c :: rest =>
      if h : pat ≠ [] ∧ pat.isPrefixOf (c :: rest) then
        rep ++ replaceChars pat rep ((c :: rest).drop pat.length)
      else
        c :: replaceChars pat rep rest
  termination_by s.length
  decreasing_by
    · simp only [List.length_drop]
      have hp : 0 < pat.length := List.length_pos.mpr h.1
      simp only [List.length_cons]
      omega
    · simp only [List.length_cons]
      omega

/-- Source _sub_id: template.replace of the objectId placeholder. -/
def sub_id (template oid : String) : String :=
  String.mk (replaceChars objectIdPlaceholder.data oid.data template.data)

/-- Resolved object record from object_resolver.py, with the dataclass field
defaults. -/
structure ResolvedObject where
  id : String
  data_type : String
  inline_content : Option String := none
  download_url : Option String := none
  download_method : String := "GET"
  download_headers : List (String × String) := []
  upload_url : String := ""
  upload_method : String := "POST"
  upload_headers : List (String × String) := []
  signed_content_type : String := "string"
  callback_on_success : String := ""
  callback_on_error : String := ""
  callback_progress : Option String := none
  callback_headers : List (String × String) := []
  pdf_label : Option String := none
  xml_xpath : Option String := none
  xml_id_attribute : Option String := none
  deriving DecidableEq

/-- One iteration of _resolve_from_objects: the common fields followed by the
isinstance dispatch on the content variant. -/
def resolve_one_object (obj : SignObject) : ResolvedObject :=
  let ro : ResolvedObject :=
    { id := obj.id, data_type := obj.data_type,
      upload_url := sub_id obj.upload.upload_url obj.id,
      upload_method := obj.upload.http_method,
      upload_headers := obj.upload.headers,
      signed_content_type := obj.upload.signed_content_type,
      callback_on_success := obj.callbacks.on_success,
      callback_on_error := obj.callbacks.on_error,
      callback_progress := obj.callbacks.progress,
      callback_headers := obj.callbacks.headers,
      pdf_label := obj.pdf_options.map PdfOptions.label,
      xml_xpath := obj.xml_options.map XmlOptions.xpath,
      xml_id_attribute := obj.xml_options.bind XmlOptions.id_attribute }
  match obj.content with
  | Content.inl ci => { ro with inline_content := some ci.content }
  | Content.rem cr => { ro with download_url := some cr.download_url,
                                download_method := cr.http_method,
                                download_headers := cr.headers }

/-- Source _resolve_from_objects (append loop = map). -/
def resolve_from_objects (objects : List SignObject) : List ResolvedObject :=
  objects.map resolve_one_object

/-- Group-derived common fields copied into each member, from
_resolve_from_groups. -/
def resolve_group_member_base (group : ObjectGroup) (oid : String) : ResolvedObject :=
  { id := oid, data_type := group.data_type,
    upload_url := sub_id group.upload.upload_url oid,
    upload_method := group.upload.http_method,
    upload_headers := group.upload.headers,
    signed_content_type := group.upload.signed_content_type,
    callback_on_success := group.callbacks.on_success,
    callback_on_error := group.callbacks.on_error,
    callback_progress := group.callbacks.progress,
    callback_headers := group.callbacks.headers,
    pdf_label := group.pdf_options.map PdfOptions.label,
    xml_xpath := group.xml_options.map XmlOptions.xpath,
    xml_id_attribute := group.xml_options.bind XmlOptions.id_attribute }

/-- Remote branch of the per-member dispatch.  The source asserts
group.download_url is not None there; the total model substitutes into the
empty template in that unreachable case. -/
def resolve_group_remote_fill (ro : ResolvedObject) (group : ObjectGroup) (oid : String) :
    ResolvedObject :=
  { ro with download_url := some (sub_id (group.download_url.getD "") oid),
            download_method := "GET",
            download_headers := group.download_headers }

/-- Per-group expansion from _resolve_from_groups, with the per-member
conditional (mode test plus isinstance test) mirrored exactly. -/
def resolve_group (group : ObjectGroup) : List ResolvedObject :=
  match group.objects with
  | GroupObjects.inlineObjs l => l.map fun o =>
      let ro := resolve_group_member_base group o.id
      if group.mode = "inline" then { ro with inline_content := some o.value }
      else if group.mode = "remote" then resolve_group_remote_fill ro group o.id
      else ro
  | GroupObjects.remoteObjs l => l.map fun o =>
      let ro := resolve_group_member_base group o.id
      if group.mode = "remote" then resolve_group_remote_fill ro group o.id
      else ro

/-- Source _resolve_from_groups (nested append loop = flatMap). -/
def resolve_from_groups (groups : List ObjectGroup) : List ResolvedObject :=
  groups.flatMap resolve_group

/-- Source resolve_objects. -/
def resolve_objects (request : SignRequest) : List ResolvedObject :=
  match request.objects with
  | some objs => resolve_from_objects objs
  | none =>
      match request.object_groups with
      | some groups => resolve_from_groups groups
      | none => []

-- ── crypto/certificate.py: find_certificate_by_id ──────────────────────────

/-- Certificate metadata as stored by CertificateInfo.__init__: serial_hex is
format(serial_number, "X") (uppercase hex) and thumbprint_hex is an
uppercased hex digest; the constructor guarantees both are uppercase. -/
structure CertificateInfo where
  serial_hex : String
  thumbprint_hex : String
  deriving DecidableEq

/-- Python str.upper restricted to the ASCII range used by hex strings. -/
def pyUpper (s : String) : String :=
  String.mk (s.data.map Char.toUpper)

/-- Python char.isspace for the ASCII whitespace stripped by str.strip. -/
def isPyWS (c : Char) : Bool :=
  c = ' ' || c = '\t' || c = '\n' || c = '\r' || c = '\x0b' || c = '\x0c'

/-- Python str.strip. -/
def pyStrip (s : String) : String :=
  String.mk (((s.data.dropWhile isPyWS).reverse.dropWhile isPyWS).reverse)

/-- Constructor invariant of CertificateInfo: both hex fields are uppercase. -/
def CertificateInfo.WF (ci : CertificateInfo) : Prop :=
  pyUpper ci.serial_hex = ci.serial_hex ∧ pyUpper ci.thumbprint_hex = ci.thumbprint_hex

/-- Source find_certificate_by_id over the list returned by
find_certificates: three sequential first-match scans. -/
def find_certificate_by_id (certs : List CertificateInfo) (cert_id : String) :
    Option CertificateInfo :=
  let needle := pyUpper (pyStrip cert_id)
  match certs.find? (fun ci => ci.serial_hex == needle) with
  | some ci => some ci
  | none =>
      match certs.find? (fun ci => ci.thumbprint_hex == needle) with
      | some ci => some ci
      | none => certs.find? (fun ci => strContains ci.serial_hex needle)

-- ── messaging/native_io.py: read_message ───────────────────────────────────

/-- Chrome native-messaging frame limit from native_io.py. -/
def MAX_MESSAGE_SIZE : Nat := 1024 * 1024

/-- struct.unpack of a little-endian uint32 from four bytes. -/
def leU32 (bytes : List Nat) : Nat :=
  match bytes with
  | [b0, b1, b2, b3] => b0 + 256 * b1 + 65536 * b2 + 16777216 * b3
  | _ => 0

/-- Source read_message over the stdin byte stream.  json.loads is the decode
parameter (none models a JSONDecodeError); blocking reads that hit EOF return
the remaining bytes, so read(n) is take n. -/
def read_message (decode : List Nat → Option JVal) (stdin : List Nat) : Option JVal :=
  let raw_length := stdin.take 4
  if raw_length.length < 4 then none
  else
    let msg_length := leU32 raw_length
    if msg_length = 0 then none
    else if msg_length > MAX_MESSAGE_SIZE then none
    else
      let raw_body := (stdin.drop 4).take msg_length
      if raw_body.length < msg_length then none
      else decode raw_body

-- ── network/uploader.py: Content-Type computation ──────────────────────────

/-- Python dict .get with default on an association list. -/
def dictGetD (d : List (String × String)) (k dflt : String) : String :=
  match d.find? (fun p => p.1 == k) with
  | some p => p.2
  | none => dflt

/-- Python dict lookup on an association list. -/
def dictGet (d : List (String × String)) (k : String) : Option String :=
  (d.find? (fun p => p.1 == k)).map (fun p => p.2)

/-- Python dict assignment d[k] = v: replace an existing binding in place,
else append. -/
def dictSet (d : List (String × String)) (k v : String) : List (String × String) :=
  if d.any (fun p => p.1 == k) then
    d.map (fun p => if p.1 == k then (k, v) else p)
  else d ++ [(k, v)]

/-- uploader.py line 75: SIGNED_CONTENT_TYPE_MAP.get(sct, octet-stream). -/
def upload_content_type (signed_content_type : String) : String :=
  dictGetD SIGNED_CONTENT_TYPE_MAP signed_content_type "application/octet-stream"

/-- uploader.py lines 78 and 79: caller headers copied, then Content-Type
assigned from the mapping. -/
def upload_request_headers (signed_content_type : String)
    (headers : List (String × String)) : List (String × String) :=
  dictSet headers "Content-Type" (upload_content_type signed_content_type)

-- ── response_builder.py ────────────────────────────────────────────────────

/-- ObjectResult accumulator (successful object). -/
structure ObjectResult where
  id : String
  upload_status_code : Nat
  upload_response_body : String
  callback_endpoint : String
  callback_timestamp : String
  deriving DecidableEq

/-- ObjectError accumulator (id is None for request-level errors). -/
structure ObjectError where
  id : Option String
  code : String
  message : String
  deriving DecidableEq

/-- Response envelope assembled by ResponseBuilder.build.  The errors key is
omitted from the emitted dict when the list is empty; the model keeps the
list, with emptiness meaning omission. -/
structure SignResponse where
  protocol_version : String
  request_id : String
  status : String
  results : List ObjectResult
  errors : List ObjectError
  metadata : List (String × JVal)
  total_ms : Nat

/-- Status determination from ResponseBuilder.build. -/
def buildStatus (results : List ObjectResult) (errors : List ObjectError) : String :=
  if errors.length = 0 then "ok"
  else if results.length = 0 then "error"
  else "partial"

/-- ResponseBuilder.build; elapsed milliseconds come from the monotonic
clock, modelled as an input. -/
def build_response (request_id : String) (metadata : List (String × JVal))
    (elapsed_ms : Nat) (results : List ObjectResult) (errors : List ObjectError) :
    SignResponse :=
  { protocol_version := PROTOCOL_VERSION, request_id := request_id,
    status := buildStatus results errors,
    results := results, errors := errors, metadata := metadata, total_ms := elapsed_ms }

-- ── processing/engine.py ───────────────────────────────────────────────────

/-- Upload endpoint response captured by the uploader. -/
structure EngUploadResult where
  status_code : Nat
  response_body : String
  deriving DecidableEq

/-- Exception payload of DownloadError, SigningError and UploadError. -/
structure PipeError where
  code : String
  message : String
  deriving DecidableEq

/-- Observable external actions of the engine, in program order: HTTP
callbacks, plus markers for a completed download, signature and upload. -/
inductive Event where
  | progressCb (objId status : String) (percent : Nat) (ok : Bool) : Event
  | downloaded (objId : String) : Event
  | signed (objId : String) : Event
  | uploaded (objId : String) : Event
  | successCb (objId : String) : Event
  | errorCb (objId code : String) : Event
  deriving DecidableEq

/-- Oracles for the engine's collaborators: HTTP client, signer, progress
endpoints, clock and the GUI cancellation flag (sampled before object idx). -/
structure Env where
  download : ResolvedObject → Except PipeError (List Nat)
  sign : ResolvedObject → List Nat → Except PipeError (List Nat)
  upload : ResolvedObject → List Nat → Except PipeError EngUploadResult
  progress2xx : ResolvedObject → String → Nat → Bool
  successTimestamp : ResolvedObject → String
  cancelAt : Nat → Bool
  elapsedMs : Nat

/-- Source _try_progress_callback: skipped when no endpoint is configured
(Python falsiness also skips an empty string); a non-2xx or failed POST is
caught and reported only through the return value. -/
def try_progress_events (env : Env) (obj : ResolvedObject) (status : String)
    (percent : Nat) : List Event :=
  match obj.callback_progress with
  | none => []
  | some p =>
      if p = "" then []
      else [Event.progressCb obj.id status percent (env.progress2xx obj status percent)]

/-- Model of the UTF-8 encoding of inline content; the engine never inspects
these bytes. -/
def strBytes (s : String) : List Nat :=
  s.data.map Char.toNat

/-- Outcome of engine.py step 2 (content acquisition): bytes, a caught
DownloadError, or the raised ValueError when the object has neither source. -/
inductive ContentRes where
  | got (bytes : List Nat) (evs : List Event) : ContentRes
  | derr (e : PipeError) : ContentRes
  | neither : ContentRes

def contentOf (env : Env) (obj : ResolvedObject) : ContentRes :=
  match obj.inline_content with
  | some s => ContentRes.got (strBytes s) []
  | none =>
      match obj.download_url with
      | some _ =>
          match env.download obj with
          | Except.ok bs => ContentRes.got bs [Event.downloaded obj.id]
          | Except.error e => ContentRes.derr e
      | none => ContentRes.neither

/-- Result of _process_single_object: an accumulated result, an accumulated
error, or an exception escaping to the caller's catch-all. -/
inductive SingleOutcome where
  | ok (r : ObjectResult) : SingleOutcome
  | failed (e : PipeError) : SingleOutcome
  | raised (msg : String) : SingleOutcome
  deriving DecidableEq

/-- Source _process_single_object.  The boolean returned by
_try_progress_callback is ignored at every call site, exactly as in the
source: processing continues regardless of the progress POST outcome. -/
def process_single_object (env : Env) (obj : ResolvedObject) :
    List Event × SingleOutcome :=
  let ev1 := try_progress_events env obj "signing" 0
  match contentOf env obj with
  | ContentRes.neither =>
      (ev1, SingleOutcome.raised "Object has neither inline content nor download URL")
  | ContentRes.derr e =>
      (ev1 ++ [Event.errorCb obj.id e.code], SingleOutcome.failed e)
  | ContentRes.got bytes devs =>
      let ev2 := ev1 ++ devs ++ try_progress_events env obj "signing" 50
      match env.sign obj bytes with
      | Except.error e => (ev2 ++ [Event.errorCb obj.id e.code], SingleOutcome.failed e)
      | Except.ok signed_bytes =>
          let ev3 := ev2 ++ [Event.signed obj.id] ++ try_progress_events env obj "uploading" 75
          match env.upload obj signed_bytes with
          | Except.error e => (ev3 ++ [Event.errorCb obj.id e.code], SingleOutcome.failed e)
          | Except.ok ur =>
              (ev3 ++ [Event.uploaded obj.id, Event.successCb obj.id],
               SingleOutcome.ok { id := obj.id,
                                  upload_status_code := ur.status_code,
                                  upload_response_body := ur.response_body,
                                  callback_endpoint := "onSuccess",
                                  callback_timestamp := env.successTimestamp obj })

/-- Error entry appended when the cancellation flag is observed. -/
def cancelEntry (obj : ResolvedObject) : ObjectError :=
  { id := some obj.id, code := "CANCELLED_BY_USER", message := "User cancelled the operation" }

/-- The per-object loop of process_request: the cancellation check breaks out
of the loop after recording one error and firing one error callback; a
non-cancelled iteration accumulates exactly one result or error. -/
def processLoop (env : Env) :
    List ResolvedObject → Nat → List ObjectResult → List ObjectError → List Event →
    List ObjectResult × List ObjectError × List Event
  | [], _, rs, es, evs => (rs, es, evs)
  | obj :: rest, idx, rs, es, evs =>
      if env.cancelAt idx then
        (rs, es ++ [cancelEntry obj], evs ++ [Event.errorCb obj.id "CANCELLED_BY_USER"])
      else
        match process_single_object env obj with
        | (oev, SingleOutcome.ok r) =>
            processLoop env rest (idx + 1) (rs ++ [r]) es (evs ++ oev)
        | (oev, SingleOutcome.failed e) =>
            processLoop env rest (idx + 1) rs
              (es ++ [{ id := some obj.id, code := e.code, message := e.message }]) (evs ++ oev)
        | (oev, SingleOutcome.raised m) =>
            processLoop env rest (idx + 1) rs
              (es ++ [{ id := some obj.id, code := "INTERNAL_ERROR", message := m }])
              (evs ++ oev ++ [Event.errorCb obj.id "INTERNAL_ERROR"])

/-- Source process_request: resolve, loop, build. -/
def process_request (env : Env) (request : SignRequest) : SignResponse × List Event :=
  let resolved := resolve_objects request
  let out := processLoop env resolved 0 [] [] []
  (build_response request.request_id request.metadata env.elapsedMs out.1 out.2.1, out.2.2)

-- ── Spec-side (claim-derived) definitions ──────────────────────────────────

/-- Ids of a single group in inner declaration order (claim C6's reading of
the wire format). -/
def groupMemberIds (g : ObjectGroup) : List String :=
  match g.objects with
  | GroupObjects.inlineObjs l => l.map GroupInlineObject.id
  | GroupObjects.remoteObjs l => l.map GroupRemoteObject.id

/-- Inner object count of a group. -/
def groupSize (g : ObjectGroup) : Nat :=
  match g.objects with
  | GroupObjects.inlineObjs l => l.length
  | GroupObjects.remoteObjs l => l.length

/-- Claim-side: the caller-declared ids in declaration order (objects-list
order, or group order then inner-object order). -/
def claimDeclaredIds (req : SignRequest) : List String :=
  match req.objects with
  | some objs => objs.map SignObject.id
  | none =>
      match req.object_groups with
      | some groups => groups.flatMap groupMemberIds
      | none => []

/-- Claim-side: the top-level objects count, or the sum of inner object
counts across all groups. -/
def claimDeclaredCount (req : SignRequest) : Nat :=
  match req.objects with
  | some objs => objs.length
  | none =>
      match req.object_groups with
      | some groups => (groups.map groupSize).sum
      | none => 0

-- ── Resolver lemmas ────────────────────────────────────────────────────────

lemma resolve_one_object_id (o : SignObject) : (resolve_one_object o).id = o.id := by
  cases h : o.content <;> simp [resolve_one_object, h]

lemma resolve_group_map_id (g : ObjectGroup) :
    (resolve_group g).map (fun ro => ro.id) = groupMemberIds g := by
  cases h : g.objects with
  | inlineObjs l =>
      simp only [resolve_group, h, groupMemberIds, List.map_map]
      apply List.map_congr_left
      intro o _
      by_cases h1 : g.mode = "inline" <;> by_cases h2 : g.mode = "remote" <;>
        simp [h1, h2, resolve_group_member_base, resolve_group_remote_fill]
  | remoteObjs l =>
      simp only [resolve_group, h, groupMemberIds, List.map_map]
      apply List.map_congr_left
      intro o _
      by_cases h2 : g.mode = "remote" <;>
        simp [h2, resolve_group_member_base, resolve_group_remote_fill]

lemma resolve_map_id (req : SignRequest) :
    (resolve_objects req).map (fun ro => ro.id) = claimDeclaredIds req := by
  cases ho : req.objects with
  | some objs =>
      simp only [resolve_objects, ho, claimDeclaredIds, resolve_from_objects, List.map_map]
      apply List.map_congr_left
      intro o _
      exact resolve_one_object_id o
  | none =>
      cases hg : req.object_groups with
      | some groups =>
          simp only [resolve_objects, ho, hg, claimDeclaredIds, resolve_from_groups,
            List.map_flatMap]
          apply List.flatMap_congr
          intro g _
          exact resolve_group_map_id g
      | none => simp [resolve_objects, ho, hg, claimDeclaredIds]

lemma groupMemberIds_length (g : ObjectGroup) : (groupMemberIds g).length = groupSize g := by
  cases h : g.objects <;> simp [groupMemberIds, groupSize, h]

lemma resolve_length (req : SignRequest) :
    (resolve_objects req).length = claimDeclaredCount req := by
  have hmap := resolve_map_id req
  have hlen : (resolve_objects req).length = (claimDeclaredIds req).length := by
    rw [← hmap, List.length_map]
  rw [hlen]
  cases ho : req.objects with
  | some objs => simp [claimDeclaredIds, claimDeclaredCount, ho]
  | none =>
      cases hg : req.object_groups with
      | some groups =>
          simp only [claimDeclaredIds, claimDeclaredCount, ho, hg, List.length_flatMap]
          congr 1
          apply List.map_congr_left
          intro g _
          exact groupMemberIds_length g
      | none => simp [claimDeclaredIds, claimDeclaredCount, ho, hg]

-- ── Claim C6 ───────────────────────────────────────────────────────────────

/-- C6: for every request, the list returned by resolve_objects has length
equal to the top-level objects count (objects form) or the sum of the inner
object counts across all groups (objectGroups form), and it preserves the
caller's declaration order: the resolved ids are exactly the declared ids in
objects-list order, respectively group order then inner-object order. -/
theorem C6_resolver_length_and_order (req : SignRequest) :
    (resolve_objects req).map (fun ro => ro.id) = claimDeclaredIds req ∧
    (resolve_objects req).length = claimDeclaredCount req :=
  ⟨resolve_map_id req, resolve_length req⟩

-- ── Claim C4 ───────────────────────────────────────────────────────────────

/-- Concrete raw object for counterexamples: a minimal valid inline text
object. -/
def rawTextObject (oid content : String) : JVal :=
  JVal.obj [("id", JVal.str oid), ("dataType", JVal.str "text"),
    ("content", JVal.obj [("mode", JVal.str "inline"), ("content", JVal.str content)]),
    ("upload", JVal.obj [("uploadUrl", JVal.str "https://up.example/put"),
                         ("signedContentType", JVal.str "string")]),
    ("callbacks", JVal.obj [("onSuccess", JVal.str "https://cb.example/ok"),
                            ("onError", JVal.str "https://cb.example/err")])]

/-- Concrete raw request wrapper for counterexamples. -/
def rawRequestWith (objs : List JVal) : JVal :=
  JVal.obj [("protocolVersion", JVal.str "1.0"), ("requestId", JVal.str "req-1"),
    ("appId", JVal.str "app"), ("cert", JVal.obj [("certId", JVal.str "ABC123")]),
    ("objects", JVal.arr objs)]

/-- A request that passes validation although two objects share the id A. -/
def dupIdRaw : JVal := rawRequestWith [rawTextObject "A" "x", rawTextObject "A" "y"]

/-- C4 counterexample: dupIdRaw passes parse_request, yet its resolved work
list carries the id A twice, so the resolved ids are not pairwise distinct. -/
theorem C4_counterexample :
    ((parse_request dupIdRaw).toOption.map
        (fun r => (resolve_objects r).map (fun ro => ro.id))) = some ["A", "A"] ∧
    ¬ (["A", "A"] : List String).Nodup := by
  constructor
  · decide
  · decide

/-- C4 amended: neither parse_request nor resolve_objects enforces id
uniqueness; ids are carried through verbatim in declaration order, so the
resolved work list has pairwise-distinct ids iff the request declared
pairwise-distinct ids. -/
theorem C4_amended_ids_unique_iff (req : SignRequest) :
    ((resolve_objects req).map (fun ro => ro.id)).Nodup ↔ (claimDeclaredIds req).Nodup := by
  rw [resolve_map_id]

-- ── Dict lemmas for the uploader ───────────────────────────────────────────

lemma find?_map_set (k v : String) :
    ∀ (d : List (String × String)), d.any (fun p => p.1 == k) →
      (d.map (fun p => if p.1 == k then (k, v) else p)).find? (fun q => q.1 == k) = some (k, v) := by
  intro d
  induction d with
  | nil => intro h; simp at h
  | cons p t ih =>
      intro h
      cases hp : (p.1 == k) with
      | true =>
          simp only [List.map_cons, hp, if_true]
          rw [List.find?_cons_of_pos _ (by simp)]
      | false =>
          simp only [List.any_cons, hp, Bool.false_or] at h
          simp only [List.map_cons, hp, Bool.false_eq_true, if_false]
          rw [List.find?_cons_of_neg _ (by simp [hp])]
          exact ih h

lemma dictGet_dictSet (d : List (String × String)) (k v : String) :
    dictGet (dictSet d k v) k = some v := by
  unfold dictSet
  cases h : d.any (fun p => p.1 == k) with
  | true =>
      rw [if_pos rfl]
      unfold dictGet
      rw [find?_map_set k v d h]
      rfl
  | false =>
      rw [if_neg (by simp)]
      unfold dictGet
      rw [List.find?_append]
      have hnone : d.find? (fun p => p.1 == k) = none := by
        rw [List.find?_eq_none]
        exact List.any_eq_false.mp h
      simp [hnone, List.find?]

-- ── Claim C10 ──────────────────────────────────────────────────────────────

/-- C10: an upload block whose signedContentType is any non-empty string
passes validation (parse_upload checks only non-emptiness, raising neither
BAD_REQUEST nor UNSUPPORTED_TYPE for the value), and the upload request
carries Content-Type looked up in SIGNED_CONTENT_TYPE_MAP with default
application/octet-stream for unknown values, overriding a caller-supplied
Content-Type header; the four known values map per the fixed table. -/
theorem C10_signed_content_type (fields : List (String × JVal)) (lbl u s : String)
    (hdrs : List (String × String))
    (hu : jget fields "uploadUrl" = some (JVal.str u)) (hune : u ≠ "")
    (hs : jget fields "signedContentType" = some (JVal.str s)) (hsne : s ≠ "") :
    (∃ cfg, parse_upload (some (JVal.obj fields)) lbl = Except.ok cfg ∧
        cfg.signed_content_type = s) ∧
    dictGet (upload_request_headers s hdrs) "Content-Type" = some (upload_content_type s) ∧
    (s ≠ "string" → s ≠ "pdf" → s ≠ "xml" → s ≠ "binary" →
      upload_content_type s = "application/octet-stream") ∧
    upload_content_type "string" = "text/plain" ∧
    upload_content_type "pdf" = "application/pdf" ∧
    upload_content_type "xml" = "application/xml" ∧
    upload_content_type "binary" = "application/octet-stream" := by
  refine ⟨?_, ?_, ?_, by decide, by decide, by decide, by decide⟩
  · have hp : parse_upload (some (JVal.obj fields)) lbl = Except.ok
        { upload_url := u, http_method := jgetStrD fields "httpMethod" "POST",
          headers := jgetHeaders fields "headers", signed_content_type := s } := by
      simp [parse_upload, require_str, hu, hs, hune, hsne, Bind.bind, Except.bind]
    exact ⟨_, hp, rfl⟩
  · exact dictGet_dictSet hdrs "Content-Type" (upload_content_type s)
  · intro h1 h2 h3 h4
    have e1 : ("string" == s) = false := beq_eq_false_iff_ne.mpr (Ne.symm h1)
    have e2 : ("pdf" == s) = false := beq_eq_false_iff_ne.mpr (Ne.symm h2)
    have e3 : ("xml" == s) = false := beq_eq_false_iff_ne.mpr (Ne.symm h3)
    have e4 : ("binary" == s) = false := beq_eq_false_iff_ne.mpr (Ne.symm h4)
    simp [upload_content_type, dictGetD, SIGNED_CONTENT_TYPE_MAP, List.find?,
      e1, e2, e3, e4]

def c10fields : List (String × JVal) :=
  [("uploadUrl", JVal.str "https://up.example/put"), ("signedContentType", JVal.str "weird")]

/-- C10 witness: the theorem applied at a concrete upload block whose
signedContentType is the unknown value weird, and a caller-supplied
Content-Type header. -/
theorem C10_witness :
    (∃ cfg, parse_upload (some (JVal.obj c10fields)) "objects[0]" = Except.ok cfg ∧
        cfg.signed_content_type = "weird") ∧
    dictGet (upload_request_headers "weird" [("Content-Type", "text/csv")]) "Content-Type" =
      some (upload_content_type "weird") ∧
    ("weird" ≠ "string" → "weird" ≠ "pdf" → "weird" ≠ "xml" → "weird" ≠ "binary" →
      upload_content_type "weird" = "application/octet-stream") ∧
    upload_content_type "string" = "text/plain" ∧
    upload_content_type "pdf" = "application/pdf" ∧
    upload_content_type "xml" = "application/xml" ∧
    upload_content_type "binary" = "application/octet-stream" :=
  C10_signed_content_type c10fields "objects[0]" "https://up.example/put" "weird"
    [("Content-Type", "text/csv")] rfl (by decide) rfl (by decide)

-- ── Claim C9 ───────────────────────────────────────────────────────────────

/-- C9: read_message yields no message when the declared little-endian length
exceeds 1 MiB; it accepts a frame of declared length exactly 1 MiB whose body
is present and decodes; a short read on the 4-byte prefix or on the body also
yields no message (the caller loop ends the session on none). -/
theorem C9_read_message (decode : List Nat → Option JVal) (stdin : List Nat) :
    (stdin.length < 4 → read_message decode stdin = none) ∧
    (1048576 < leU32 (stdin.take 4) → read_message decode stdin = none) ∧
    (stdin.length < 4 + leU32 (stdin.take 4) → read_message decode stdin = none) ∧
    (∀ m, leU32 (stdin.take 4) = 1048576 → 4 + 1048576 ≤ stdin.length →
      decode ((stdin.drop 4).take 1048576) = some m →
      read_message decode stdin = some m) := by
  have hmax : MAX_MESSAGE_SIZE = 1048576 := by norm_num [MAX_MESSAGE_SIZE]
  have htake : (stdin.take 4).length = min 4 stdin.length := by
    simp [List.length_take]
  refine ⟨?_, ?_, ?_, ?_⟩
  · intro h
    unfold read_message
    rw [if_pos]
    omega
  · intro h
    unfold read_message
    by_cases hlen : (stdin.take 4).length < 4
    · rw [if_pos hlen]
    · rw [if_neg hlen]
      have h0 : ¬ (leU32 (stdin.take 4) = 0) := by omega
      rw [if_neg h0, if_pos (by omega)]
  · intro h
    unfold read_message
    by_cases hlen : (stdin.take 4).length < 4
    · rw [if_pos hlen]
    · rw [if_neg hlen]
      by_cases h0 : leU32 (stdin.take 4) = 0
      · rw [if_pos h0]
      · rw [if_neg h0]
        by_cases hbig : leU32 (stdin.take 4) > MAX_MESSAGE_SIZE
        · rw [if_pos hbig]
        · rw [if_neg hbig]
          rw [if_pos]
          have hbody : ((stdin.drop 4).take (leU32 (stdin.take 4))).length =
              min (leU32 (stdin.take 4)) (stdin.length - 4) := by
            simp [List.length_take, List.length_drop]
          omega
  · intro m hlenEq hlong hdec
    unfold read_message
    rw [if_neg (by omega)]
    rw [hlenEq]
    rw [if_neg (by omega), if_neg (by omega)]
    rw [if_neg]
    · exact hdec
    · have hbody : ((stdin.drop 4).take 1048576).length =
          min 1048576 (stdin.length - 4) := by
        simp [List.length_take, List.length_drop]
      omega

def constNullDecode : List Nat → Option JVal := fun _ => some JVal.null

/-- A frame declaring exactly 1 MiB with a full body of 1048576 bytes. -/
def bigFrame : List Nat := [0, 0, 16, 0] ++ List.replicate 1048576 97

/-- C9 witness: the theorem applied to a short prefix, an oversized declared
length, a truncated body, and a full frame of exactly 1 MiB. -/
theorem C9_witness :
    read_message constNullDecode [7] = none ∧
    read_message constNullDecode [1, 0, 16, 0] = none ∧
    read_message constNullDecode [5, 0, 0, 0, 1] = none ∧
    read_message constNullDecode bigFrame = some JVal.null := by
  have hbig : 4 + 1048576 ≤ bigFrame.length := by
    have h1 : bigFrame.length = [0, 0, 16, 0].length + 1048576 := by
      unfold bigFrame
      rw [List.length_append, List.length_replicate]
    rw [h1]
    exact Nat.le_refl _
  refine ⟨(C9_read_message constNullDecode [7]).1 (by decide),
          (C9_read_message constNullDecode [1, 0, 16, 0]).2.1 (by decide),
          (C9_read_message constNullDecode [5, 0, 0, 0, 1]).2.2.1 (by decide),
          (C9_read_message constNullDecode bigFrame).2.2.2 JVal.null rfl hbig rfl⟩

-- ── Claim C8 ───────────────────────────────────────────────────────────────

/-- Claim-side: exact case-insensitive string equality. -/
def ciEqCI (a b : String) : Bool := pyUpper a == pyUpper b

/-- Claim-side: case-insensitive substring containment of pat in s. -/
def ciSubstrCI (pat s : String) : Bool :=
  hasSubstr (pyUpper s).data (pyUpper pat).data

/-- Claim-side selection, written from the claim text: stage 1 exact
case-insensitive serial match, then stage 2 exact case-insensitive thumbprint
match, then stage 3 case-insensitive substring match on the serial; first
certificate at the earliest matching stage, none when no stage matches. -/
def claimSelectCert (certs : List CertificateInfo) (cert_id : String) :
    Option CertificateInfo :=
  match certs.find? (fun ci => ciEqCI ci.serial_hex cert_id) with
  | some ci => some ci
  | none =>
      match certs.find? (fun ci => ciEqCI ci.thumbprint_hex cert_id) with
      | some ci => some ci
      | none => certs.find? (fun ci => ciSubstrCI cert_id ci.serial_hex)

lemma find?_congr_mem (l : List α) (p q : α → Bool) (h : ∀ x ∈ l, p x = q x) :
    l.find? p = l.find? q := by
  induction l with
  | nil => rfl
  | cons a t ih =>
      rw [List.find?, List.find?, h a (by simp)]
      cases hq : q a
      · simp only []
        exact ih (fun x hx => h x (by simp [hx]))
      · rfl

def c8cert : CertificateInfo := { serial_hex := "AB12", thumbprint_hex := "CD34" }

/-- C8 counterexample: the source strips surrounding whitespace from certId
before matching.  For certId " ab12" against a certificate with serial AB12,
no stage of the claim-described procedure matches, yet the code returns the
certificate. -/
theorem C8_counterexample :
    find_certificate_by_id [c8cert] " ab12" = some c8cert ∧
    claimSelectCert [c8cert] " ab12" = none := by
  constructor
  · decide
  · decide

/-- C8 amended: after trimming leading and trailing whitespace from certId,
selection is exactly the claim-described stage-ordered first match —
case-insensitive exact serial, case-insensitive exact thumbprint,
case-insensitive serial substring — with none (CERT_NOT_FOUND) when no stage
matches.  The uppercase-hex constructor invariant of CertificateInfo is the
hypothesis. -/
theorem C8_amended_match_order (certs : List CertificateInfo) (cert_id : String)
    (hwf : ∀ ci ∈ certs, ci.WF) :
    find_certificate_by_id certs cert_id = claimSelectCert certs (pyStrip cert_id) := by
  simp only [find_certificate_by_id, claimSelectCert]
  have h1 : certs.find? (fun ci => ci.serial_hex == pyUpper (pyStrip cert_id)) =
      certs.find? (fun ci => ciEqCI ci.serial_hex (pyStrip cert_id)) := by
    apply find?_congr_mem
    intro ci hci
    unfold ciEqCI
    rw [(hwf ci hci).1]
  have h2 : certs.find? (fun ci => ci.thumbprint_hex == pyUpper (pyStrip cert_id)) =
      certs.find? (fun ci => ciEqCI ci.thumbprint_hex (pyStrip cert_id)) := by
    apply find?_congr_mem
    intro ci hci
    unfold ciEqCI
    rw [(hwf ci hci).2]
  have h3 : certs.find? (fun ci => strContains ci.serial_hex (pyUpper (pyStrip cert_id))) =
      certs.find? (fun ci => ciSubstrCI (pyStrip cert_id) ci.serial_hex) := by
    apply find?_congr_mem
    intro ci hci
    unfold ciSubstrCI strContains
    rw [(hwf ci hci).1]
  rw [h1, h2, h3]

/-- C8 witness: the amended theorem applied to a concrete certificate list
with the uppercase invariant discharged by computation. -/
theorem C8_witness :
    find_certificate_by_id [c8cert] " ab12" = claimSelectCert [c8cert] (pyStrip " ab12") :=
  C8_amended_match_order [c8cert] " ab12" (by
    intro ci hci
    rw [List.mem_singleton] at hci
    subst hci
    exact ⟨by decide, by decide⟩)

-- ── Engine lemmas ──────────────────────────────────────────────────────────

lemma processLoop_mono (env : Env) (l : List ResolvedObject) :
    ∀ idx rs es evs,
      rs.length + es.length ≤
        (processLoop env l idx rs es evs).1.length +
        (processLoop env l idx rs es evs).2.1.length := by
  induction l with
  | nil => intro idx rs es evs; simp [processLoop]
  | cons obj rest ih =>
      intro idx rs es evs
      cases hc : env.cancelAt idx with
      | true =>
          simp only [processLoop, hc, if_true]
          simp [List.length_append]
      | false =>
          rcases hso : process_single_object env obj with ⟨oev, oc⟩
          cases oc with
          | ok r =>
              have h := ih (idx + 1) (rs ++ [r]) es (evs ++ oev)
              simp only [processLoop, hc, Bool.false_eq_true, if_false, hso]
              simp only [List.length_append, List.length_cons, List.length_nil] at h
              omega
          | failed e =>
              have h := ih (idx + 1) rs
                (es ++ [{ id := some obj.id, code := e.code, message := e.message }]) (evs ++ oev)
              simp only [processLoop, hc, Bool.false_eq_true, if_false, hso]
              simp only [List.length_append, List.length_cons, List.length_nil] at h
              omega
          | raised m =>
              have h := ih (idx + 1) rs
                (es ++ [{ id := some obj.id, code := "INTERNAL_ERROR", message := m }])
                (evs ++ oev ++ [Event.errorCb obj.id "INTERNAL_ERROR"])
              simp only [processLoop, hc, Bool.false_eq_true, if_false, hso]
              simp only [List.length_append, List.length_cons, List.length_nil] at h
              omega

lemma processLoop_adds (env : Env) (l : List ResolvedObject) (idx : Nat)
    (rs : List ObjectResult) (es : List ObjectError) (evs : List Event) (hne : l ≠ []) :
    rs.length + es.length + 1 ≤
      (processLoop env l idx rs es evs).1.length +
      (processLoop env l idx rs es evs).2.1.length := by
  cases l with
  | nil => exact absurd rfl hne
  | cons obj rest =>
      cases hc : env.cancelAt idx with
      | true =>
          simp only [processLoop, hc, if_true]
          simp only [List.length_append, List.length_cons, List.length_nil]
          omega
      | false =>
          rcases hso : process_single_object env obj with ⟨oev, oc⟩
          cases oc with
          | ok r =>
              have h := processLoop_mono env rest (idx + 1) (rs ++ [r]) es (evs ++ oev)
              simp only [processLoop, hc, Bool.false_eq_true, if_false, hso]
              simp only [List.length_append, List.length_cons, List.length_nil] at h
              omega
          | failed e =>
              have h := processLoop_mono env rest (idx + 1) rs
                (es ++ [{ id := some obj.id, code := e.code, message := e.message }]) (evs ++ oev)
              simp only [processLoop, hc, Bool.false_eq_true, if_false, hso]
              simp only [List.length_append, List.length_cons, List.length_nil] at h
              omega
          | raised m =>
              have h := processLoop_mono env rest (idx + 1) rs
                (es ++ [{ id := some obj.id, code := "INTERNAL_ERROR", message := m }])
                (evs ++ oev ++ [Event.errorCb obj.id "INTERNAL_ERROR"])
              simp only [processLoop, hc, Bool.false_eq_true, if_false, hso]
              simp only [List.length_append, List.length_cons, List.length_nil] at h
              omega

lemma buildStatus_cases (rs : List ObjectResult) (es : List ObjectError)
    (htot : 1 ≤ rs.length + es.length) :
    (buildStatus rs es = "ok" ↔ (es = [] ∧ rs ≠ [])) ∧
    (buildStatus rs es = "error" ↔ rs = []) ∧
    (buildStatus rs es = "partial" ↔ (es ≠ [] ∧ rs ≠ [])) := by
  unfold buildStatus
  by_cases hes : es.length = 0
  · have hesnil : es = [] := List.length_eq_zero.mp hes
    have hrsne : rs ≠ [] := by
      intro h
      subst h
      rw [hesnil] at htot
      simp at htot
    subst hesnil
    simp [hrsne]
  · have hesne : es ≠ [] := by
      intro h
      subst h
      simp at hes
    by_cases hrs : rs.length = 0
    · have hrsnil : rs = [] := List.length_eq_zero.mp hrs
      subst hrsnil
      simp [hes, hesne]
    · have hrsne : rs ≠ [] := by
        intro h
        subst h
        simp at hrs
      simp [hes, hrs, hesne, hrsne]

-- ── Claim C5 ───────────────────────────────────────────────────────────────

/-- C5: for every engine run over a non-empty resolved work list, the emitted
envelope has status ok iff the errors list is empty and the results list is
non-empty; status error iff the results list is empty; and status partial in
the remaining case (errors and results both non-empty). -/
theorem C5_response_status (env : Env) (req : SignRequest)
    (hne : resolve_objects req ≠ []) :
    ((process_request env req).1.status = "ok" ↔
        ((process_request env req).1.errors = [] ∧ (process_request env req).1.results ≠ [])) ∧
    ((process_request env req).1.status = "error" ↔ (process_request env req).1.results = []) ∧
    ((process_request env req).1.status = "partial" ↔
        ((process_request env req).1.errors ≠ [] ∧ (process_request env req).1.results ≠ [])) := by
  have htot := processLoop_adds env (resolve_objects req) 0 [] [] [] hne
  simp only [process_request, build_response]
  exact buildStatus_cases _ _ (by simpa using htot)

/-- Concrete typed object for engine runs. -/
def mkTextObject (oid content : String) : SignObject :=
  { id := oid, data_type := "text",
    content := Content.inl { encoding := "utf8", content := content },
    upload := { upload_url := "https://up.example/put", http_method := "POST",
                headers := [], signed_content_type := "string" },
    callbacks := { on_success := "https://cb.example/ok", on_error := "https://cb.example/err",
                   progress := none, headers := [] },
    pdf_options := none, xml_options := none }

/-- Concrete typed request for engine runs. -/
def mkRequest (objs : List SignObject) : SignRequest :=
  { protocol_version := "1.0", request_id := "req-1", app_id := "app",
    cert := { cert_id := "ABC123", label := none }, metadata := [], correlation_id := none,
    objects := some objs, object_groups := none }

def w5env : Env :=
  { download := fun _ => Except.ok [], sign := fun _ _ => Except.ok [],
    upload := fun _ _ => Except.ok { status_code := 200, response_body := "" },
    progress2xx := fun _ _ _ => true, successTimestamp := fun _ => "2026-01-01T00:00:00Z",
    cancelAt := fun _ => false, elapsedMs := 5 }

def w5req : SignRequest := mkRequest [mkTextObject "w1" "hello"]

/-- C5 witness: the theorem applied to a one-object request processed by a
fully succeeding environment. -/
theorem C5_witness :
    ((process_request w5env w5req).1.status = "ok" ↔
        ((process_request w5env w5req).1.errors = [] ∧ (process_request w5env w5req).1.results ≠ [])) ∧
    ((process_request w5env w5req).1.status = "error" ↔ (process_request w5env w5req).1.results = []) ∧
    ((process_request w5env w5req).1.status = "partial" ↔
        ((process_request w5env w5req).1.errors ≠ [] ∧ (process_request w5env w5req).1.results ≠ [])) :=
  C5_response_status w5env w5req (by decide)

-- ── Claim C1 ───────────────────────────────────────────────────────────────

lemma processLoop_cancel_split (env : Env) :
    ∀ (k : Nat) (l : List ResolvedObject) (idx : Nat) (rs : List ObjectResult)
      (es : List ObjectError) (evs : List Event) (hk : k < l.length),
      (∀ i, i < k → env.cancelAt (idx + i) = false) →
      env.cancelAt (idx + k) = true →
      processLoop env l idx rs es evs =
        ((processLoop env (l.take k) idx rs es evs).1,
         (processLoop env (l.take k) idx rs es evs).2.1 ++ [cancelEntry (l.get ⟨k, hk⟩)],
         (processLoop env (l.take k) idx rs es evs).2.2 ++
           [Event.errorCb (l.get ⟨k, hk⟩).id "CANCELLED_BY_USER"]) := by
  intro k
  induction k with
  | zero =>
      intro l idx rs es evs hk hbefore hcan
      cases l with
      | nil => simp at hk
      | cons o t =>
          rw [Nat.add_zero] at hcan
          simp [processLoop, hcan]
  | succ k ih =>
      intro l idx rs es evs hk hbefore hcan
      cases l with
      | nil => simp at hk
      | cons o t =>
          have h0 : env.cancelAt idx = false := by
            have h := hbefore 0 (Nat.succ_pos k)
            rwa [Nat.add_zero] at h
          have hbefore2 : ∀ i, i < k → env.cancelAt (idx + 1 + i) = false := by
            intro i hi
            have h := hbefore (i + 1) (by omega)
            rwa [show idx + (i + 1) = idx + 1 + i by omega] at h
          have hcan2 : env.cancelAt (idx + 1 + k) = true := by
            rwa [show idx + (k + 1) = idx + 1 + k by omega] at hcan
          have hk2 : k < t.length := by simpa using hk
          rcases hso : process_single_object env o with ⟨oev, oc⟩
          cases oc with
          | ok r =>
              have h := ih t (idx + 1) (rs ++ [r]) es (evs ++ oev) hk2 hbefore2 hcan2
              simp only [processLoop, h0, Bool.false_eq_true, if_false, hso,
                List.take_succ_cons, List.get_cons_succ]
              exact h
          | failed e =>
              have h := ih t (idx + 1) rs
                (es ++ [{ id := some o.id, code := e.code, message := e.message }])
                (evs ++ oev) hk2 hbefore2 hcan2
              simp only [processLoop, h0, Bool.false_eq_true, if_false, hso,
                List.take_succ_cons, List.get_cons_succ]
              exact h
          | raised m =>
              have h := ih t (idx + 1) rs
                (es ++ [{ id := some o.id, code := "INTERNAL_ERROR", message := m }])
                (evs ++ oev ++ [Event.errorCb o.id "INTERNAL_ERROR"]) hk2 hbefore2 hcan2
              simp only [processLoop, h0, Bool.false_eq_true, if_false, hso,
                List.take_succ_cons, List.get_cons_succ]
              exact h

def c1env : Env :=
  { download := fun _ => Except.ok [], sign := fun _ _ => Except.ok [],
    upload := fun _ _ => Except.ok { status_code := 200, response_body := "" },
    progress2xx := fun _ _ _ => true, successTimestamp := fun _ => "ts",
    cancelAt := fun _ => true, elapsedMs := 0 }

def c1req : SignRequest := mkRequest [mkTextObject "o1" "x", mkTextObject "o2" "y"]

/-- C1 counterexample: with the cancellation flag set before object 0 of a
two-object work list, the emitted errors list contains a single
CANCELLED_BY_USER entry (for object o1 only) — not one entry per
not-yet-completed object, and nothing for o2. -/
theorem C1_counterexample :
    (process_request c1env c1req).1.errors =
      [{ id := some "o1", code := "CANCELLED_BY_USER", message := "User cancelled the operation" }] ∧
    (resolve_objects c1req).length = 2 := by
  constructor
  · decide
  · decide

/-- C1 amended: when the cancellation flag is first observed set before
object k of the resolved work list (k < n), process_request marks only object
k with a CANCELLED_BY_USER error and attempts one error callback for it, then
stops: the response carries the results, errors and callbacks accumulated for
objects 0..k-1, the single appended cancellation entry for object k, and
nothing at all for objects k+1..n-1. -/
theorem C1_amended_cancel_stops (env : Env) (req : SignRequest) (k : Nat)
    (hk : k < (resolve_objects req).length)
    (hbefore : ∀ i, i < k → env.cancelAt i = false)
    (hcancel : env.cancelAt k = true) :
    process_request env req =
      (build_response req.request_id req.metadata env.elapsedMs
        (processLoop env ((resolve_objects req).take k) 0 [] [] []).1
        ((processLoop env ((resolve_objects req).take k) 0 [] [] []).2.1 ++
          [cancelEntry ((resolve_objects req).get ⟨k, hk⟩)]),
       (processLoop env ((resolve_objects req).take k) 0 [] [] []).2.2 ++
         [Event.errorCb ((resolve_objects req).get ⟨k, hk⟩).id "CANCELLED_BY_USER"]) := by
  have hsplit := processLoop_cancel_split env k (resolve_objects req) 0 [] [] [] hk
    (by intro i hi; simpa using hbefore i hi) (by simpa using hcancel)
  simp only [process_request]
  rw [hsplit]

/-- C1 witness: the amended theorem applied at k = 0 to a two-object request
whose environment reports cancellation immediately. -/
theorem C1_amended_witness :
    process_request c1env c1req =
      (build_response "req-1" [] 0 []
        [{ id := some "o1", code := "CANCELLED_BY_USER", message := "User cancelled the operation" }],
       [Event.errorCb "o1" "CANCELLED_BY_USER"]) := by
  have h := C1_amended_cancel_stops c1env c1req 0 (by decide)
    (fun i hi => absurd hi (Nat.not_lt_zero i)) rfl
  rw [h]
  rfl

-- ── Claim C2 ───────────────────────────────────────────────────────────────

def c2req : SignRequest := mkRequest
  [{ mkTextObject "o1" "hello" with
     callbacks := { on_success := "https://cb.example/ok", on_error := "https://cb.example/err",
                    progress := some "https://cb.example/progress", headers := [] } }]

def c2env : Env :=
  { download := fun _ => Except.ok [], sign := fun _ _ => Except.ok [1],
    upload := fun _ _ => Except.ok { status_code := 201, response_body := "stored" },
    progress2xx := fun _ _ _ => false, successTimestamp := fun _ => "ts",
    cancelAt := fun _ => false, elapsedMs := 0 }

/-- C2: the engine ignores the boolean returned by _try_progress_callback at
every call site.  With a progress endpoint configured and every progress POST
returning non-2xx, the starting progress callback is observed failing
(ok = false), yet the object is still signed, uploaded and its success
callback fired, and it is recorded as an ok result with no error — the
object's signing is not cancelled. -/
theorem C2_progress_failure_ignored :
    (process_request c2env c2req).1.errors = [] ∧
    ((process_request c2env c2req).1.results.map (fun r => r.id)) = ["o1"] ∧
    Event.progressCb "o1" "signing" 0 false ∈ (process_request c2env c2req).2 ∧
    Event.signed "o1" ∈ (process_request c2env c2req).2 ∧
    Event.uploaded "o1" ∈ (process_request c2env c2req).2 ∧
    Event.successCb "o1" ∈ (process_request c2env c2req).2 := by
  refine ⟨by decide, by decide, by decide, by decide, by decide, by decide⟩

-- ── Claim C3 ───────────────────────────────────────────────────────────────

/-- A full raw request carrying one inline text object with payload s. -/
def inlinePayloadRaw (s : String) : JVal := rawRequestWith [rawTextObject "o1" s]

/-- The typed object that parsing rawTextObject o1 s produces. -/
def inlinePayloadObject (s : String) : SignObject :=
  { id := "o1", data_type := "text",
    content := Content.inl { encoding := "utf8", content := s },
    upload := { upload_url := "https://up.example/put", http_method := "POST",
                headers := [], signed_content_type := "string" },
    callbacks := { on_success := "https://cb.example/ok", on_error := "https://cb.example/err",
                   progress := none, headers := [] },
    pdf_options := none, xml_options := none }

/-- The parse result of inlinePayloadRaw. -/
def inlinePayloadParsed (s : String) : SignRequest :=
  { protocol_version := "1.0", request_id := "req-1", app_id := "app",
    cert := { cert_id := "ABC123", label := none }, metadata := [], correlation_id := none,
    objects := some [inlinePayloadObject s],
    object_groups := none }

/-- C3: parse_request performs no size check on inline payloads —
MAX_INLINE_SIZE_BYTES is never consulted — so a request whose inline payload
exceeds 1 MiB (here: any length above 1048576) parses successfully instead of
being rejected with BAD_REQUEST. -/
theorem C3_no_inline_size_check (s : String) (hlen : 1048576 < s.length) :
    parse_request (inlinePayloadRaw s) = Except.ok (inlinePayloadParsed s) := by
  have hs : ¬ s = "" := by
    intro h
    subst h
    have hz : ("" : String).length = 0 := rfl
    omega
  simp [inlinePayloadRaw, rawRequestWith, rawTextObject, parse_request, parse_object,
    parse_content, parse_upload, parse_callbacks, parsePdfIfNeeded, parseXmlIfNeeded,
    require_str, ensure, exMapM, requireNonEmptyArr, contentIsInline,
    jget, jhas, pyGet, jvalEqStr, jgetStr, jgetStrD, jgetHeaders,
    SUPPORTED_DATA_TYPES, REMOTE_ONLY_TYPES, PROTOCOL_VERSION,
    List.find?, List.enum, List.enumFrom, Bind.bind, Except.bind, hs,
    inlinePayloadParsed, inlinePayloadObject]

/-- The concrete failing input: an inline payload of exactly 1 MiB + 1
bytes. -/
def bigA : String := String.mk (List.replicate 1048577 (Char.ofNat 97))

/-- C3 witness: the theorem applied at the 1 MiB + 1 payload, which the
parser accepts although the claim requires BAD_REQUEST. -/
theorem C3_witness :
    1048576 < bigA.length ∧
    parse_request (inlinePayloadRaw bigA) = Except.ok (inlinePayloadParsed bigA) := by
  have hlen : 1048576 < bigA.length := by
    have h1 : bigA.length = (List.replicate 1048577 (Char.ofNat 97)).length := rfl
    rw [h1, List.length_replicate]
    omega
  exact ⟨hlen, C3_no_inline_size_check bigA hlen⟩

-- ── Parser invariant lemmas (for C7) ───────────────────────────────────────

lemma bind_ok_iff (e : Except RequestValidationError α)
    (f : α → Except RequestValidationError β) (v : β) :
    (e >>= f = Except.ok v) ↔ ∃ a, e = Except.ok a ∧ f a = Except.ok v := by
  cases e <;> simp [Bind.bind, Except.bind]

lemma map_ok_iff (f : α → β) (e : Except RequestValidationError α) (v : β) :
    (Except.map f e = Except.ok v) ↔ ∃ a, e = Except.ok a ∧ f a = v := by
  cases e <;> simp [Except.map]

lemma ensure_ok {c : Bool} {e : RequestValidationError} {u : Unit}
    (h : ensure c e = Except.ok u) : c = true := by
  unfold ensure at h
  cases hc : c with
  | true => rfl
  | false => rw [hc] at h; simp at h

lemma require_str_ok {fields : List (String × JVal)} {key name s : String}
    (h : require_str fields key name = Except.ok s) : s ≠ "" := by
  unfold require_str at h
  split at h
  · split at h
    · simp at h
    · next hne =>
        rw [Except.ok.injEq] at h
        subst h
        exact hne
  · simp at h

/-- The source invariant of a parsed content variant: the payload string,
respectively the download URL, is non-empty. -/
def ContentWF : Content → Prop
  | Content.inl ci => ci.content ≠ ""
  | Content.rem cr => cr.download_url ≠ ""

lemma parse_content_wf {raw : JVal} {lbl : String} {c : Content}
    (h : parse_content raw lbl = Except.ok c) : ContentWF c := by
  unfold parse_content at h
  split at h
  · split at h
    · split_ifs at h
      · simp only [bind_ok_iff] at h
        obtain ⟨a, ha, hok⟩ := h
        rw [Except.ok.injEq] at hok
        subst hok
        exact require_str_ok ha
      · simp only [bind_ok_iff] at h
        obtain ⟨a, ha, hok⟩ := h
        rw [Except.ok.injEq] at hok
        subst hok
        exact require_str_ok ha
    · simp at h
  · simp at h

lemma exMapM_mem {f : α → Except RequestValidationError β} :
    ∀ {l : List α} {ys : List β}, exMapM f l = Except.ok ys →
      ∀ y ∈ ys, ∃ x ∈ l, f x = Except.ok y := by
  intro l
  induction l with
  | nil =>
      intro ys h y hy
      unfold exMapM at h
      rw [Except.ok.injEq] at h
      subst h
      simp at hy
  | cons a as ih =>
      intro ys h y hy
      unfold exMapM at h
      simp only [bind_ok_iff] at h
      obtain ⟨b, hb, bs, hbs, hcons⟩ := h
      rw [Except.ok.injEq] at hcons
      subst hcons
      rcases List.mem_cons.mp hy with hhead | htail
      · subst hhead
        exact ⟨a, List.mem_cons_self a as, hb⟩
      · obtain ⟨x, hx, hfx⟩ := ih hbs y htail
        exact ⟨x, List.mem_cons_of_mem a hx, hfx⟩

lemma parse_object_content_wf {raw : JVal} {i : Nat} {o : SignObject}
    (h : parse_object raw i = Except.ok o) : ContentWF o.content := by
  unfold parse_object at h
  split at h
  · simp only [bind_ok_iff] at h
    obtain ⟨oid, _, dt, _, u1, _, content, hcontent, u2, _, up, _, cb, _, po, _, xo, _, hok⟩ := h
    rw [Except.ok.injEq] at hok
    subst hok
    exact parse_content_wf hcontent
  · simp at h

lemma parseGroupInlineObj_wf {raw : JVal} {j : Nat} {label : String} {io : GroupInlineObject}
    (h : parseGroupInlineObj raw j label = Except.ok io) : io.value ≠ "" ∧ io.id ≠ "" := by
  unfold parseGroupInlineObj at h
  split at h
  · simp only [bind_ok_iff] at h
    obtain ⟨oid, hoid, hrest⟩ := h
    split at hrest
    · simp only [bind_ok_iff] at hrest
      obtain ⟨v, hv, hok⟩ := hrest
      rw [Except.ok.injEq] at hok
      subst hok
      exact ⟨require_str_ok hv, require_str_ok hoid⟩
    · simp at hrest
  · simp at h

lemma parseGroupRemoteObj_wf {raw : JVal} {j : Nat} {label : String} {ro : GroupRemoteObject}
    (h : parseGroupRemoteObj raw j label = Except.ok ro) : ro.id ≠ "" := by
  unfold parseGroupRemoteObj at h
  split at h
  · simp only [bind_ok_iff] at h
    obtain ⟨oid, hoid, hok⟩ := h
    rw [Except.ok.injEq] at hok
    subst hok
    exact require_str_ok hoid
  · simp at h

/-- The source invariants that _parse_group establishes on a group: the mode
is inline or remote; an inline group carries value-bearing inner objects with
non-empty values; a remote group carries a non-empty download template and
id-only inner objects with non-empty ids. -/
def GroupWF (g : ObjectGroup) : Prop :=
  (g.mode = "inline" ∨ g.mode = "remote") ∧
  (g.mode = "inline" →
      ∃ l, g.objects = GroupObjects.inlineObjs l ∧ ∀ io ∈ l, io.value ≠ "") ∧
  (g.mode = "remote" →
      (∃ u, g.download_url = some u ∧ u ≠ "") ∧
      ∃ l, g.objects = GroupObjects.remoteObjs l ∧ ∀ ro ∈ l, ro.id ≠ "")

lemma parse_group_wf {raw : JVal} {i : Nat} {g : ObjectGroup}
    (h : parse_group raw i = Except.ok g) : GroupWF g := by
  unfold parse_group at h
  split at h
  · simp only [bind_ok_iff] at h
    obtain ⟨dt, _, u1, _, mode, hmode, u2, hmode2, u3, _, dl, hdl, cb, _, up, _,
      po, _, xo, _, raws, _, objs, hobjs, hok⟩ := h
    rw [Except.ok.injEq] at hok
    subst hok
    have hmodes : mode = "inline" ∨ mode = "remote" := by
      have hb := ensure_ok hmode2
      simp only [Bool.or_eq_true, decide_eq_true_eq] at hb
      exact hb
    refine ⟨hmodes, ?_, ?_⟩
    · intro hinl
      simp only at hinl
      unfold parseGroupObjects at hobjs
      rw [if_pos hinl] at hobjs
      rw [map_ok_iff] at hobjs
      obtain ⟨l, hl, hobj⟩ := hobjs
      refine ⟨l, by simp [← hobj], ?_⟩
      intro io hio
      obtain ⟨x, _, hfx⟩ := exMapM_mem hl io hio
      exact (parseGroupInlineObj_wf hfx).1
    · intro hrem
      simp only at hrem
      constructor
      · unfold parseGroupDownload at hdl
        rw [hrem] at hdl
        rw [if_pos rfl] at hdl
        simp only [bind_ok_iff] at hdl
        obtain ⟨u, hu, u4, _, hok2⟩ := hdl
        rw [Except.ok.injEq] at hok2
        subst hok2
        exact ⟨u, rfl, require_str_ok hu⟩
      · unfold parseGroupObjects at hobjs
        rw [hrem] at hobjs
        rw [if_neg (by decide)] at hobjs
        rw [map_ok_iff] at hobjs
        obtain ⟨l, hl, hobj⟩ := hobjs
        refine ⟨l, by simp [← hobj], ?_⟩
        intro ro hro
        obtain ⟨x, _, hfx⟩ := exMapM_mem hl ro hro
        exact parseGroupRemoteObj_wf hfx
  · simp at h

lemma parse_request_wf {raw : JVal} {req : SignRequest}
    (h : parse_request raw = Except.ok req) :
    (∀ os, req.objects = some os → ∀ o ∈ os, ContentWF o.content) ∧
    (∀ gs, req.object_groups = some gs → ∀ g ∈ gs, GroupWF g) := by
  unfold parse_request at h
  split at h
  · simp only [bind_ok_iff] at h
    obtain ⟨pv, _, u1, _, rid, _, aid, _, md, _, cert, _, u2, _, u3, _, hbranch⟩ := h
    split at hbranch
    · simp only [bind_ok_iff] at hbranch
      obtain ⟨raws, _, objs, hobjs, hok⟩ := hbranch
      rw [Except.ok.injEq] at hok
      subst hok
      constructor
      · intro os hos o ho
        simp only [Option.some.injEq] at hos
        subst hos
        obtain ⟨x, _, hfx⟩ := exMapM_mem hobjs o ho
        exact parse_object_content_wf hfx
      · intro gs hgs
        simp at hgs
    · simp only [bind_ok_iff] at hbranch
      obtain ⟨raws, _, gs0, hgs0, hok⟩ := hbranch
      rw [Except.ok.injEq] at hok
      subst hok
      constructor
      · intro os hos
        simp at hos
      · intro gs hgs g hg
        simp only [Option.some.injEq] at hgs
        subst hgs
        obtain ⟨x, _, hfx⟩ := exMapM_mem hgs0 g hg
        exact parse_group_wf hfx
  · simp at h

-- ── String replacement lemmas (for C7) ─────────────────────────────────────

lemma replaceChars_ne_nil (pat rep : List Char) (s : List Char)
    (hs : s ≠ []) (hr : rep ≠ []) : replaceChars pat rep s ≠ [] := by
  cases s with
  | nil => exact absurd rfl hs
  | cons c rest =>
      unfold replaceChars
      split
      · simp only [ne_eq, List.append_eq_nil]
        intro hand
        exact hr hand.1
      · simp

lemma str_data_ne {s : String} (h : s ≠ "") : s.data ≠ [] := by
  intro hd
  apply h
  apply String.ext
  rw [hd]

lemma sub_id_ne_empty {t oid : String} (ht : t ≠ "") (ho : oid ≠ "") :
    sub_id t oid ≠ "" := by
  unfold sub_id
  intro hcontra
  have hdata : replaceChars objectIdPlaceholder.data oid.data t.data = [] := by
    have hc := congrArg String.data hcontra
    simpa using hc
  exact replaceChars_ne_nil _ _ _ (str_data_ne ht) (str_data_ne ho) hdata

-- ── Claim C7 ───────────────────────────────────────────────────────────────

/-- Exactly one of the two content sources is set, to a non-empty value. -/
def ContentXor (ro : ResolvedObject) : Prop :=
  (∃ s, ro.inline_content = some s ∧ s ≠ "" ∧ ro.download_url = none) ∨
  (∃ u, ro.download_url = some u ∧ u ≠ "" ∧ ro.inline_content = none)

/-- C7: every resolved object of a request that passed validation has exactly
one of inline_content and download_url set, to a non-empty value — never both
and never neither. -/
theorem C7_exactly_one_source (raw : JVal) (req : SignRequest)
    (h : parse_request raw = Except.ok req) :
    ∀ ro ∈ resolve_objects req, ContentXor ro := by
  obtain ⟨hobjs, hgroups⟩ := parse_request_wf h
  intro ro hro
  unfold resolve_objects at hro
  split at hro
  · next objs hsome =>
      unfold resolve_from_objects at hro
      obtain ⟨o, ho, rfl⟩ := List.mem_map.mp hro
      have hwf := hobjs objs hsome o ho
      unfold resolve_one_object
      cases hc : o.content with
      | inl ci =>
          rw [hc] at hwf
          left
          exact ⟨ci.content, rfl, hwf, rfl⟩
      | rem cr =>
          rw [hc] at hwf
          right
          exact ⟨cr.download_url, rfl, hwf, rfl⟩
  · split at hro
    · next gs hsome =>
        unfold resolve_from_groups at hro
        obtain ⟨g, hg, hro2⟩ := List.mem_flatMap.mp hro
        have hwf := hgroups gs hsome g hg
        obtain ⟨hmodes, hinl, hrem⟩ := hwf
        unfold resolve_group at hro2
        split at hro2
        · next l hobj =>
            obtain ⟨io, hio, rfl⟩ := List.mem_map.mp hro2
            rcases hmodes with hm | hm
            · obtain ⟨l2, hl2, hvals⟩ := hinl hm
              rw [hobj] at hl2
              rw [GroupObjects.inlineObjs.injEq] at hl2
              subst hl2
              rw [if_pos hm]
              left
              exact ⟨io.value, rfl, hvals io hio, rfl⟩
            · obtain ⟨_, ⟨l2, hl2, _⟩⟩ := hrem hm
              rw [hobj] at hl2
              simp at hl2
        · next l hobj =>
            obtain ⟨o, ho, rfl⟩ := List.mem_map.mp hro2
            rcases hmodes with hm | hm
            · obtain ⟨l2, hl2, _⟩ := hinl hm
              rw [hobj] at hl2
              simp at hl2
            · obtain ⟨⟨u, hu, hune⟩, ⟨l2, hl2, hids⟩⟩ := hrem hm
              rw [hobj] at hl2
              rw [GroupObjects.remoteObjs.injEq] at hl2
              subst hl2
              rw [if_pos hm]
              right
              refine ⟨sub_id (g.download_url.getD "") o.id, rfl, ?_, rfl⟩
              rw [hu]
              exact sub_id_ne_empty hune (hids o ho)
    · simp at hro

/-- C7 witness: the theorem applied to the concrete one-object inline request
and its single resolved object. -/
theorem C7_witness :
    ContentXor (resolve_one_object (inlinePayloadObject "payload")) := by
  have h := C7_exactly_one_source (inlinePayloadRaw "payload")
    (inlinePayloadParsed "payload") rfl
  apply h
  show resolve_one_object (inlinePayloadObject "payload") ∈
    [resolve_one_object (inlinePayloadObject "payload")]
  exact List.Mem.head _

end SignBridge
